import Mathlib

/-!
Verification of the karvis real-time speech segmentation pipeline.

This file embeds the two transcriber implementations of the repository:

* `Moonshine` embeds `moonshine.py` (`RealTimeTranscriber` driven by the
  event-based Silero `VADIterator`);
* `Transcriber` embeds `transcriber_module.py` (`RealTimeTranscriber`
  driven by frame-polling `webrtcvad`).

External collaborators are modelled as opaque inputs: the transcription
model is a parameter `t : List Int → String` (the tokenizer decode and
strip of `moonshine._transcribe`, resp. the `mlx_whisper.transcribe` +
`.strip()` call, are folded into this opaque function), VAD verdicts are
inputs to the callbacks (the Silero iterator returns `None` or a dict
holding a "start"/"end" key; webrtcvad is an opaque boolean classifier,
with its exception path already folded in since an exception yields
`is_speech = False`).

Audio samples are carried as `List Int` (the int16 values used by
`transcriber_module`; for `moonshine` the float32 samples are carried
by the same type, their values never being inspected by the code under
verification). Wall-clock values (`time.time()`) and float parameters
are carried as `ℚ`.

Every function that can invoke the transcription model additionally
returns the list of argument buffers the model was invoked on, so that
"the transcription function is never invoked here" is expressible as
that list being empty.
-/

/-- Pipeline state: `STATE_WAITING` / `STATE_RECORDING` of `moonshine.py`,
`STATE_WAITING_FOR_SPEECH` / `STATE_RECORDING_SPEECH` of
`transcriber_module.py`. -/
inductive PState where
  | waiting
  | recording
deriving DecidableEq, Repr

/-- `SAMPLE_RATE = 16000`, shared by both modules. -/
def SAMPLE_RATE : Nat := 16000

namespace Moonshine

/-- `CHUNK_SIZE = 512` (`moonshine.py`). -/
def CHUNK_SIZE : Nat := 512

/-- `LOOKBACK_CHUNKS = 5` (`moonshine.py`). -/
def LOOKBACK_CHUNKS : Nat := 5

/-- `MAX_SPEECH_SECS = 20` (`moonshine.py`). -/
def MAX_SPEECH_SECS : Nat := 20

/-- `MIN_REFRESH_SECS = 0.3` (`moonshine.py`). -/
def MIN_REFRESH_SECS : ℚ := 3 / 10

/-- `self._lookback = LOOKBACK_CHUNKS * CHUNK_SIZE` (`moonshine.py` line 59). -/
def lookback : Nat := LOOKBACK_CHUNKS * CHUNK_SIZE

/-- Python negative-index slice `xs[-n:]`: the last `n` elements (all of
`xs` when it is shorter than `n`). -/
def lastN (n : Nat) (xs : List Int) : List Int :=
  xs.drop (xs.length - n)

/-- Result of one `self.vad_iter(data)` call: the Silero `VADIterator`
returns `None` or a dict that may hold the keys `"start"` and `"end"`. -/
structure VadRes where
  has_start : Bool
  has_end : Bool
deriving DecidableEq, Repr

/-- Mutable state of `moonshine.RealTimeTranscriber`:
`_audio_buffer`, `_state`, `_utter_start`, `_output_queue` (of final
text), `_stop_event`, `_stream` (presence of the sounddevice stream). -/
structure MoonState where
  audio_buffer : List Int
  state : PState
  utter_start : ℚ
  output_queue : List String
  stop_event : Bool
  stream : Option Unit
deriving DecidableEq, Repr

/-- State right after `__init__` (`moonshine.py` lines 58-65). -/
def init_state : MoonState :=
  { audio_buffer := []
    state := PState.waiting
    utter_start := 0
    output_queue := []
    stop_event := false
    stream := none }

/-- `_finalize_utterance` (`moonshine.py` lines 101-107): transcribe the
whole audio buffer, enqueue the text when non-empty, then reset the
buffer and the state. The second component records the transcription
invocation (its argument buffer). -/
def finalize_utterance (t : List Int → String) (s : MoonState) :
    MoonState × List (List Int) :=
  let text := t s.audio_buffer
  let s1 := if text ≠ "" then { s with output_queue := s.output_queue ++ [text] } else s
  ({ s1 with audio_buffer := [], state := PState.waiting }, [s.audio_buffer])

/-- `_audio_callback` (`moonshine.py` lines 67-95). `status` mirrors the
sounddevice status flag (it only triggers a progress print, processing
continues); `data` is the raveled frame; `vad` is the result of
`self.vad_iter(data)`; `now` is `time.time()`. The second component is
the list of transcription invocations performed during the call. -/
def audio_callback (t : List Int → String) (status : Bool) (data : List Int)
    (vad : Option VadRes) (now : ℚ) (s : MoonState) :
    MoonState × List (List Int) :=
  let _ := status
  let s := if s.state = PState.waiting
    then { s with audio_buffer := lastN lookback (s.audio_buffer ++ data) }
    else { s with audio_buffer := s.audio_buffer ++ data }
  match vad with
  | some v =>
      let s := if v.has_start ∧ s.state = PState.waiting
        then { s with state := PState.recording, utter_start := now }
        else s
      if v.has_end ∧ s.state = PState.recording then finalize_utterance t s
      else (s, [])
  | none =>
      if s.state = PState.recording then
        let s := if now - s.utter_start > MIN_REFRESH_SECS
          then { s with utter_start := now } else s
        if (s.audio_buffer.length : ℚ) / (SAMPLE_RATE : ℚ) > (MAX_SPEECH_SECS : ℚ)
          then finalize_utterance t s
        else (s, [])
      else (s, [])

/-- `start` (`moonshine.py` lines 109-124), state effect before the
generator loop: clear the stop event and open + start the input stream.
Nothing else is reset: buffers, state and the output queue are left as
they are. -/
def start (s : MoonState) : MoonState :=
  { s with stop_event := false, stream := some () }

/-- `stop` (`moonshine.py` lines 137-150): no-op when the stop event is
already set; otherwise set it, stop/close the stream and drop the
reference. -/
def stop (s : MoonState) : MoonState :=
  if s.stop_event then s
  else { s with stop_event := true, stream := none }

/-- The `finally` clause of the generator returned by `start`
(`moonshine.py` lines 134-135): whatever ends the generator loop, it
invokes `self.stop()`. -/
def generator_cleanup (s : MoonState) : MoonState := stop s

/-- The generator loop pulls from `self._output_queue`
(`moonshine.py` line 130): the next value the session yields. -/
def next_yield (s : MoonState) : Option String := s.output_queue.head?

/-- One callback invocation as an input record (for running the callback
over a whole input sequence). -/
structure CbInput where
  status : Bool
  data : List Int
  vad : Option VadRes
  now : ℚ
deriving Repr

/-- Fold `audio_callback` over a sequence of frames, concatenating the
transcription-invocation logs. -/
def run_callbacks (t : List Int → String) :
    List CbInput → MoonState → MoonState × List (List Int)
  | [], s => (s, [])
  | i :: rest, s =>
      let r := audio_callback t i.status i.data i.vad i.now s
      let r2 := run_callbacks t rest r.1
      (r2.1, r.2 ++ r2.2)

/-- States reachable from a fresh `RealTimeTranscriber` through the
lifecycle operations and audio callbacks. -/
inductive Reach : MoonState → Prop where
  | init : Reach init_state
  | step_start : ∀ s, Reach s → Reach (start s)
  | step_stop : ∀ s, Reach s → Reach (stop s)
  | step_cb : ∀ t st d v n s, Reach s → Reach (audio_callback t st d v n s).1

end Moonshine

namespace Transcriber

/-- Configuration of `transcriber_module.RealTimeTranscriber.__init__`. -/
structure Config where
  vad_aggressiveness : Nat
  vad_frame_ms : Nat
  vad_silence_timeout_ms : Nat
  input_block_size : Nat
  energy_threshold : ℚ
deriving Repr

/-- `self._vad_frame_samples = int(SAMPLE_RATE * (vad_frame_ms / 1000.0))`
(line 56); exact for the webrtcvad-legal frame durations 10/20/30 ms. -/
def vad_frame_samples (c : Config) : Nat :=
  SAMPLE_RATE * c.vad_frame_ms / 1000

/-- `self._max_silence_frames = int(vad_silence_timeout_ms / vad_frame_ms)`
(lines 57-59): `int()` truncates, so this is the floor of the quotient. -/
def max_silence_frames (c : Config) : Nat :=
  c.vad_silence_timeout_ms / c.vad_frame_ms

/-- The default configuration of `__init__` (`energy_threshold=0.005`). -/
def default_config : Config :=
  { vad_aggressiveness := 3
    vad_frame_ms := 30
    vad_silence_timeout_ms := 1500
    input_block_size := 1024
    energy_threshold := 1 / 200 }

/-- Mutable state of `transcriber_module.RealTimeTranscriber`:
`_keep_running`, `_current_state`, `_speech_buffer` (a Python list of
int16 frames), `_processing_buffer`, `_silence_frames_after_speech`,
`_transcription_queue` (whose items are frame lists, or `none` for the
shutdown sentinel), `_output_queue`. -/
structure State where
  keep_running : Bool
  current_state : PState
  speech_buffer : List (List Int)
  processing_buffer : List Int
  silence_frames_after_speech : Nat
  transcription_queue : List (Option (List (List Int)))
  output_queue : List String
deriving DecidableEq, Repr

/-- State right after `__init__` (lines 64-78). -/
def init_state : State :=
  { keep_running := false
    current_state := PState.waiting
    speech_buffer := []
    processing_buffer := []
    silence_frames_after_speech := 0
    transcription_queue := []
    output_queue := [] }

/-- Lines 182-185 of `_audio_callback`: enqueue the speech buffer to the
transcription queue only when it is non-empty, then clear it. -/
def finalize_speech_buffer (s : State) : State :=
  let s := if s.speech_buffer ≠ []
    then { s with transcription_queue := s.transcription_queue ++ [some s.speech_buffer] }
    else s
  { s with speech_buffer := [] }

/-- Body of one iteration of the VAD loop of `_audio_callback`
(lines 164-188), after the frame has been split off the processing
buffer: `is_sp` is the webrtcvad verdict for `frame`. The boolean
result is `true` when the iteration executed `break`. -/
def process_vad_frame (c : Config) (is_sp : Bool) (frame : List Int) (s : State) :
    State × Bool :=
  if is_sp then
    let s := { s with silence_frames_after_speech := 0 }
    let s := if s.current_state = PState.waiting
      then { s with current_state := PState.recording, speech_buffer := [] }
      else s
    let s := if s.current_state = PState.recording
      then { s with speech_buffer := s.speech_buffer ++ [frame] }
      else s
    (s, false)
  else if s.current_state = PState.recording then
    let s := { s with speech_buffer := s.speech_buffer ++ [frame],
                      silence_frames_after_speech := s.silence_frames_after_speech + 1 }
    if s.silence_frames_after_speech ≥ max_silence_frames c then
      (finalize_speech_buffer s, true)
    else (s, false)
  else (s, false)

/-- The `while len(self._processing_buffer) >= self._vad_frame_samples`
loop of `_audio_callback` (lines 155-188), fuelled: the Python loop
removes `vad_frame_samples ≥ 1` samples per iteration, so a fuel equal
to the processing-buffer length over-approximates the iteration count
(with a 0-sample frame size the Python loop would not terminate at
all). -/
def vad_loop (c : Config) (is_speech : List Int → Bool) :
    Nat → State → State
  | 0, s => s
  | fuel + 1, s =>
      if s.processing_buffer.length ≥ vad_frame_samples c then
        if s.keep_running = false then s
        else
          let frame := s.processing_buffer.take (vad_frame_samples c)
          let s1 := { s with processing_buffer := s.processing_buffer.drop (vad_frame_samples c) }
          let r := process_vad_frame c (is_speech frame) frame s1
          if r.2 then r.1 else vad_loop c is_speech fuel r.1
      else s

/-- `_audio_callback` (lines 139-188). On a truthy status, or when the
stop signal was received, the callback returns without touching any
state; otherwise the incoming block is appended to the processing
buffer and the VAD loop runs. -/
def audio_callback (c : Config) (is_speech : List Int → Bool) (status : Bool)
    (data : List Int) (s : State) : State :=
  if status then s
  else if s.keep_running = false then s
  else
    let s1 := { s with processing_buffer := s.processing_buffer ++ data }
    vad_loop c is_speech s1.processing_buffer.length s1

/-- Mean absolute amplitude of the float32 signal the worker rebuilds
(line 92-95): the int16 samples divided by 32767, then `np.abs(...).mean()`. -/
def mean_abs_amp (audio : List Int) : ℚ :=
  ((audio.map fun x => ((x.natAbs : ℚ) / 32767)).sum) / (audio.length : ℚ)

/-- One pass of the `_transcription_worker` body for a dequeued item
(lines 86-129): `none` is the shutdown sentinel (`break`, nothing else
happens); otherwise the chunks are concatenated, the energy gate may
skip the utterance (resetting the state), else the model is invoked
(the `finally` always resets the state) and a non-empty stripped text
is pushed to the output queue. The second component records the
transcription invocations. -/
def transcription_worker_step (c : Config) (t : List Int → String)
    (item : Option (List (List Int))) (s : State) : State × List (List Int) :=
  match item with
  | none => (s, [])
  | some chunks =>
      let audio := chunks.flatten
      if mean_abs_amp audio < c.energy_threshold then
        ({ s with current_state := PState.waiting }, [])
      else
        let text := (t audio).trim
        let s := { s with current_state := PState.waiting }
        if text ≠ "" then ({ s with output_queue := s.output_queue ++ [text] }, [audio])
        else (s, [audio])

/-- `start` (lines 190-215), state effect before the generator loop:
no-op when already running; otherwise set the running flag, reset the
segmenter state and buffers and drain both queues. -/
def start (s : State) : State :=
  if s.keep_running then s
  else
    { s with keep_running := true
             current_state := PState.waiting
             speech_buffer := []
             processing_buffer := []
             silence_frames_after_speech := 0
             transcription_queue := []
             output_queue := [] }

/-- `stop` (lines 246-279): no-op when already stopped; otherwise clear
the running flag and push the `None` sentinel onto the transcription
queue. -/
def stop (s : State) : State :=
  if s.keep_running = false then s
  else { s with keep_running := false,
                transcription_queue := s.transcription_queue ++ [none] }

end Transcriber

namespace Moonshine

/-- One 512-sample capture block of a speech burst (the VAD verdicts are
separate inputs, so the sample values never influence control flow). -/
def speech_chunk : List Int := List.replicate CHUNK_SIZE 1000

/-- One 512-sample capture block of silence. -/
def silence_chunk : List Int := List.replicate CHUNK_SIZE 0

/-- First callback of a continuous burst: the event-driven gate reports
that speech started. -/
abbrev start_input : CbInput :=
  { status := false, data := speech_chunk
    vad := some { has_start := true, has_end := false }, now := 0 }

/-- A mid-burst callback: speech continues, so the event-driven gate
(which only signals transitions) reports nothing. -/
abbrev cont_input : CbInput :=
  { status := false, data := speech_chunk, vad := none, now := 0 }

/-- The first silent callback after the burst, on which the event-driven
gate reports that speech ended. -/
abbrev end_input : CbInput :=
  { status := false, data := silence_chunk
    vad := some { has_start := false, has_end := true }, now := 0 }

/-- A continuous speech burst of duration `2 * MAX_SPEECH_SECS`:
1250 chunks of 512 samples (40 s at 16 kHz) delivered as one start
event followed by 1249 event-less speech callbacks (the forced cutoff
fires on the 626th chunk, when the buffer first exceeds 320000
samples), closed by the end event on the following silence. -/
abbrev burst_inputs : List CbInput :=
  start_input :: (List.replicate 624 cont_input
    ++ (cont_input :: (List.replicate 624 cont_input ++ [end_input])))

end Moonshine

/-! ## Helper lemmas -/

namespace Moonshine

theorem lastN_of_le {n : Nat} {xs : List Int} (h : xs.length ≤ n) :
    lastN n xs = xs := by
  unfold lastN
  rw [Nat.sub_eq_zero_of_le h, List.drop_zero]

theorem cut_iff (n : Nat) :
    ((n : ℚ) / (SAMPLE_RATE : ℚ) > (MAX_SPEECH_SECS : ℚ)) ↔ 320000 < n := by
  rw [gt_iff_lt, lt_div_iff₀ (by norm_num [SAMPLE_RATE] : (0 : ℚ) < (SAMPLE_RATE : ℚ))]
  norm_num [SAMPLE_RATE, MAX_SPEECH_SECS]

theorem cut_sum_iff (a b : Nat) :
    ((MAX_SPEECH_SECS : ℚ) < ((a : ℚ) + (b : ℚ)) / (SAMPLE_RATE : ℚ)) ↔ 320000 < a + b := by
  rw [show ((a : ℚ) + (b : ℚ)) = (((a + b : Nat)) : ℚ) by push_cast; ring]
  rw [← gt_iff_lt, cut_iff]

theorem finalize_fields (t : List Int → String) (s : MoonState) :
    (finalize_utterance t s).1.state = PState.waiting ∧
    (finalize_utterance t s).1.audio_buffer = [] ∧
    (finalize_utterance t s).1.stop_event = s.stop_event ∧
    (finalize_utterance t s).1.stream = s.stream ∧
    (finalize_utterance t s).2 = [s.audio_buffer] := by
  unfold finalize_utterance
  refine ⟨rfl, rfl, ?_, ?_, rfl⟩ <;> dsimp only <;> split <;> rfl

theorem cb_waiting_none (t : List Int → String) (st : Bool) (data : List Int)
    (now : ℚ) (s : MoonState) (h : s.state = PState.waiting) :
    audio_callback t st data none now s
      = ({ s with audio_buffer := lastN lookback (s.audio_buffer ++ data) }, []) := by
  unfold audio_callback
  simp [h]

theorem cb_waiting_end (t : List Int → String) (st : Bool) (data : List Int)
    (now : ℚ) (s : MoonState) (h : s.state = PState.waiting) :
    audio_callback t st data (some ⟨false, true⟩) now s
      = ({ s with audio_buffer := lastN lookback (s.audio_buffer ++ data) }, []) := by
  unfold audio_callback
  simp [h]

theorem cb_waiting_start (t : List Int → String) (st : Bool) (data : List Int)
    (now : ℚ) (s : MoonState) (h : s.state = PState.waiting) :
    audio_callback t st data (some ⟨true, false⟩) now s
      = ({ s with audio_buffer := lastN lookback (s.audio_buffer ++ data),
                  state := PState.recording, utter_start := now }, []) := by
  unfold audio_callback
  simp [h]

theorem cb_recording_none_nocut (t : List Int → String) (st : Bool) (data : List Int)
    (now : ℚ) (s : MoonState) (h : s.state = PState.recording)
    (href : ¬ now - s.utter_start > MIN_REFRESH_SECS)
    (hlen : s.audio_buffer.length + data.length ≤ 320000) :
    audio_callback t st data none now s
      = ({ s with audio_buffer := s.audio_buffer ++ data }, []) := by
  unfold audio_callback
  simp [h, href]
  intro hgt
  exact absurd ((cut_sum_iff _ _).mp hgt) (by omega)

theorem cb_recording_none_cut (t : List Int → String) (st : Bool) (data : List Int)
    (now : ℚ) (s : MoonState) (h : s.state = PState.recording)
    (href : ¬ now - s.utter_start > MIN_REFRESH_SECS)
    (hlen : 320000 < s.audio_buffer.length + data.length) :
    audio_callback t st data none now s
      = finalize_utterance t { s with audio_buffer := s.audio_buffer ++ data } := by
  unfold audio_callback
  simp [h, href]
  intro hle
  exact absurd ((cut_sum_iff _ _).mpr (by omega)) (not_lt.mpr hle)

theorem cb_ctrl (t : List Int → String) (st : Bool) (data : List Int)
    (vad : Option VadRes) (now : ℚ) (s : MoonState) :
    (audio_callback t st data vad now s).1.stop_event = s.stop_event ∧
    (audio_callback t st data vad now s).1.stream = s.stream := by
  unfold audio_callback finalize_utterance
  cases vad <;> dsimp only <;> split_ifs <;> simp

theorem reach_ctrl_invariant {s : MoonState} (h : Reach s) :
    s.stop_event = true → s.stream = none := by
  induction h with
  | init => intro hc; simp [init_state] at hc
  | step_start s hs ih => intro hc; simp [start] at hc
  | step_stop s hs ih =>
      unfold stop
      split
      · exact ih
      · intro _; rfl
  | step_cb t st d v n s hs ih =>
      intro hc
      rcases cb_ctrl t st d v n s with ⟨h1, h2⟩
      rw [h1] at hc
      rw [h2]
      exact ih hc

theorem run_callbacks_append (t : List Int → String) (l1 l2 : List CbInput)
    (s : MoonState) :
    run_callbacks t (l1 ++ l2) s
      = ((run_callbacks t l2 (run_callbacks t l1 s).1).1,
         (run_callbacks t l1 s).2 ++ (run_callbacks t l2 (run_callbacks t l1 s).1).2) := by
  induction l1 generalizing s with
  | nil => simp [run_callbacks]
  | cons i rest ih =>
      simp only [List.cons_append, run_callbacks]
      rw [show rest.append l2 = rest ++ l2 from rfl, ih]
      simp [List.append_assoc]

end Moonshine

namespace Transcriber

theorem fsb_processing (s : State) :
    (finalize_speech_buffer s).processing_buffer = s.processing_buffer := by
  unfold finalize_speech_buffer
  dsimp only
  split <;> rfl

theorem pvf_speech_waiting (c : Config) (fr : List Int) (s : State)
    (h : s.current_state = PState.waiting) :
    process_vad_frame c true fr s
      = ({ s with silence_frames_after_speech := 0, current_state := PState.recording,
                  speech_buffer := [fr] }, false) := by
  simp [process_vad_frame, h]

theorem pvf_speech_recording (c : Config) (fr : List Int) (s : State)
    (h : s.current_state = PState.recording) :
    process_vad_frame c true fr s
      = ({ s with silence_frames_after_speech := 0,
                  speech_buffer := s.speech_buffer ++ [fr] }, false) := by
  simp [process_vad_frame, h]

theorem pvf_silence_waiting (c : Config) (fr : List Int) (s : State)
    (h : s.current_state = PState.waiting) :
    process_vad_frame c false fr s = (s, false) := by
  simp [process_vad_frame, h]

theorem pvf_silence_recording_below (c : Config) (fr : List Int) (s : State)
    (h : s.current_state = PState.recording)
    (hm : s.silence_frames_after_speech + 1 < max_silence_frames c) :
    process_vad_frame c false fr s
      = ({ s with speech_buffer := s.speech_buffer ++ [fr],
                  silence_frames_after_speech := s.silence_frames_after_speech + 1 },
         false) := by
  simp [process_vad_frame, h]
  omega

theorem pvf_silence_recording_fin (c : Config) (fr : List Int) (s : State)
    (h : s.current_state = PState.recording)
    (hm : max_silence_frames c ≤ s.silence_frames_after_speech + 1) :
    process_vad_frame c false fr s
      = ({ s with speech_buffer := [],
                  silence_frames_after_speech := s.silence_frames_after_speech + 1,
                  transcription_queue := s.transcription_queue
                    ++ [some (s.speech_buffer ++ [fr])] },
         true) := by
  simp [process_vad_frame, finalize_speech_buffer, h, hm]

theorem pvf_processing (c : Config) (b : Bool) (fr : List Int) (s : State) :
    (process_vad_frame c b fr s).1.processing_buffer = s.processing_buffer := by
  cases b <;> cases hcs : s.current_state
  · rw [pvf_silence_waiting c fr s hcs]
  · by_cases hm : s.silence_frames_after_speech + 1 < max_silence_frames c
    · rw [pvf_silence_recording_below c fr s hcs hm]
    · rw [pvf_silence_recording_fin c fr s hcs (by omega)]
  · rw [pvf_speech_waiting c fr s hcs]
  · rw [pvf_speech_recording c fr s hcs]

theorem pvf_queues (c : Config) (b : Bool) (fr : List Int) (s : State) :
    ∃ l, (process_vad_frame c b fr s).1.transcription_queue
          = s.transcription_queue ++ l ∧
      (process_vad_frame c b fr s).1.output_queue = s.output_queue := by
  cases b <;> cases hcs : s.current_state
  · rw [pvf_silence_waiting c fr s hcs]
    exact ⟨[], by simp⟩
  · by_cases hm : s.silence_frames_after_speech + 1 < max_silence_frames c
    · rw [pvf_silence_recording_below c fr s hcs hm]
      exact ⟨[], by simp⟩
    · rw [pvf_silence_recording_fin c fr s hcs (by omega)]
      exact ⟨[some (s.speech_buffer ++ [fr])], by simp⟩
  · rw [pvf_speech_waiting c fr s hcs]
    exact ⟨[], by simp⟩
  · rw [pvf_speech_recording c fr s hcs]
    exact ⟨[], by simp⟩

theorem vad_loop_queues (c : Config) (isp : List Int → Bool) (fuel : Nat) (s : State) :
    ∃ l, (vad_loop c isp fuel s).transcription_queue = s.transcription_queue ++ l ∧
      (vad_loop c isp fuel s).output_queue = s.output_queue := by
  induction fuel generalizing s with
  | zero => exact ⟨[], by simp [vad_loop]⟩
  | succ fuel ih =>
      rw [vad_loop]
      by_cases h1 : s.processing_buffer.length ≥ vad_frame_samples c
      · rw [if_pos h1]
        by_cases h2 : s.keep_running = false
        · rw [if_pos h2]
          exact ⟨[], by simp⟩
        · rw [if_neg h2]
          dsimp only
          obtain ⟨l1, hq1, ho1⟩ := pvf_queues c
            (isp (s.processing_buffer.take (vad_frame_samples c)))
            (s.processing_buffer.take (vad_frame_samples c))
            { s with processing_buffer := s.processing_buffer.drop (vad_frame_samples c) }
          by_cases h3 : (process_vad_frame c
              (isp (s.processing_buffer.take (vad_frame_samples c)))
              (s.processing_buffer.take (vad_frame_samples c))
              { s with processing_buffer := s.processing_buffer.drop (vad_frame_samples c) }).2
            = true
          · rw [if_pos h3]
            exact ⟨l1, hq1, ho1⟩
          · rw [if_neg h3]
            obtain ⟨l2, hq2, ho2⟩ := ih (process_vad_frame c
              (isp (s.processing_buffer.take (vad_frame_samples c)))
              (s.processing_buffer.take (vad_frame_samples c))
              { s with processing_buffer := s.processing_buffer.drop (vad_frame_samples c) }).1
            exact ⟨l1 ++ l2, by rw [hq2, hq1, List.append_assoc], by rw [ho2, ho1]⟩
      · rw [if_neg h1]
        exact ⟨[], by simp⟩

theorem vad_loop_conservation (c : Config) (isp : List Int → Bool) (fuel : Nat)
    (s : State) :
    ∃ frames : List (List Int),
      (∀ f ∈ frames, f.length = vad_frame_samples c) ∧
      s.processing_buffer = frames.flatten ++ (vad_loop c isp fuel s).processing_buffer := by
  induction fuel generalizing s with
  | zero => exact ⟨[], by simp [vad_loop]⟩
  | succ fuel ih =>
      rw [vad_loop]
      by_cases h1 : s.processing_buffer.length ≥ vad_frame_samples c
      · rw [if_pos h1]
        have htake : (s.processing_buffer.take (vad_frame_samples c)).length
            = vad_frame_samples c := by
          rw [List.length_take]
          omega
        by_cases h2 : s.keep_running = false
        · rw [if_pos h2]
          exact ⟨[], by simp⟩
        · rw [if_neg h2]
          dsimp only
          by_cases h3 : (process_vad_frame c
              (isp (s.processing_buffer.take (vad_frame_samples c)))
              (s.processing_buffer.take (vad_frame_samples c))
              { s with processing_buffer := s.processing_buffer.drop (vad_frame_samples c) }).2
            = true
          · rw [if_pos h3]
            refine ⟨[s.processing_buffer.take (vad_frame_samples c)], ?_, ?_⟩
            · intro f hf
              simp only [List.mem_singleton] at hf
              rw [hf]
              exact htake
            · rw [pvf_processing]
              simp [List.take_append_drop]
          · rw [if_neg h3]
            obtain ⟨frames, hlen, hsplit⟩ := ih (process_vad_frame c
              (isp (s.processing_buffer.take (vad_frame_samples c)))
              (s.processing_buffer.take (vad_frame_samples c))
              { s with processing_buffer := s.processing_buffer.drop (vad_frame_samples c) }).1
            rw [pvf_processing] at hsplit
            refine ⟨s.processing_buffer.take (vad_frame_samples c) :: frames, ?_, ?_⟩
            · intro f hf
              rcases List.mem_cons.mp hf with hf | hf
              · rw [hf]
                exact htake
              · exact hlen f hf
            · conv_lhs => rw [← List.take_append_drop (vad_frame_samples c) s.processing_buffer]
              rw [List.flatten_cons, List.append_assoc]
              exact congrArg (s.processing_buffer.take (vad_frame_samples c) ++ ·) hsplit
      · rw [if_neg h1]
        exact ⟨[], by simp⟩

end Transcriber

namespace Moonshine

theorem run_callbacks_cons (t : List Int → String) (i : CbInput) (rest : List CbInput)
    (s : MoonState) :
    run_callbacks t (i :: rest) s
      = ((run_callbacks t rest (audio_callback t i.status i.data i.vad i.now s).1).1,
         (audio_callback t i.status i.data i.vad i.now s).2
           ++ (run_callbacks t rest (audio_callback t i.status i.data i.vad i.now s).1).2) :=
  rfl

theorem run_callbacks_nil (t : List Int → String) (s : MoonState) :
    run_callbacks t [] s = (s, []) :=
  rfl

theorem speech_chunk_length : speech_chunk.length = 512 := by
  simp only [speech_chunk, List.length_replicate, CHUNK_SIZE]

theorem run_cont_recording (t : List Int → String) (k : Nat) (s : MoonState)
    (hst : s.state = PState.recording) (hus : s.utter_start = 0)
    (hlen : s.audio_buffer.length + 512 * k ≤ 320000) :
    run_callbacks t (List.replicate k cont_input) s
      = ({ s with audio_buffer := s.audio_buffer
            ++ (List.replicate k speech_chunk).flatten }, []) := by
  induction k generalizing s with
  | zero =>
      simp only [List.replicate_zero, run_callbacks, List.flatten_nil, List.append_nil]
  | succ k ih =>
      rw [List.replicate_succ, run_callbacks_cons]
      rw [show cont_input.vad = none from rfl]
      rw [cb_recording_none_nocut t cont_input.status cont_input.data cont_input.now s hst
        (by rw [hus, show cont_input.now = (0 : ℚ) from rfl]; norm_num [MIN_REFRESH_SECS])
        (by rw [show cont_input.data = speech_chunk from rfl, speech_chunk_length]; omega)]
      dsimp only
      rw [ih { s with audio_buffer := s.audio_buffer ++ cont_input.data } hst hus
        (by rw [show cont_input.data = speech_chunk from rfl]
            simp only [List.length_append, speech_chunk_length]
            omega)]
      simp only [show cont_input.data = speech_chunk from rfl, List.replicate_succ,
        List.flatten_cons, List.append_assoc, List.append_nil, Prod.mk.injEq, and_true]

theorem run_cont_waiting (t : List Int → String) (k : Nat) (s : MoonState)
    (hst : s.state = PState.waiting) :
    ∃ b, run_callbacks t (List.replicate k cont_input) s
      = ({ s with audio_buffer := b }, []) := by
  induction k generalizing s with
  | zero => exact ⟨s.audio_buffer, rfl⟩
  | succ k ih =>
      rw [List.replicate_succ, run_callbacks_cons]
      rw [show cont_input.vad = none from rfl]
      rw [cb_waiting_none t cont_input.status cont_input.data cont_input.now s hst]
      dsimp only
      obtain ⟨b, hb2⟩ := ih
        { s with audio_buffer := lastN lookback (s.audio_buffer ++ cont_input.data) } hst
      refine ⟨b, ?_⟩
      rw [hb2]
      rfl

theorem run_end_eq (t : List Int → String) (s : MoonState)
    (hst : s.state = PState.waiting) :
    run_callbacks t [end_input] s
      = ({ s with audio_buffer := lastN lookback (s.audio_buffer ++ end_input.data) }, []) := by
  rw [run_callbacks_cons]
  rw [show end_input.vad = some ⟨false, true⟩ from rfl]
  rw [cb_waiting_end t end_input.status end_input.data end_input.now s hst]
  dsimp only
  rw [run_callbacks_nil]
  rfl

theorem run_cons_eq (t : List Int → String) (i : CbInput) (rest : List CbInput)
    (s s1 : MoonState) (log1 : List (List Int)) (Q : MoonState × List (List Int))
    (hcb : audio_callback t i.status i.data i.vad i.now s = (s1, log1))
    (hrest : run_callbacks t rest s1 = Q) :
    run_callbacks t (i :: rest) s = (Q.1, log1 ++ Q.2) := by
  rw [run_callbacks_cons, hcb]
  dsimp only
  rw [hrest]

theorem run_append_eq (t : List Int → String) (l1 l2 : List CbInput)
    (s s1 : MoonState) (log1 : List (List Int)) (Q : MoonState × List (List Int))
    (h1 : run_callbacks t l1 s = (s1, log1))
    (h2 : run_callbacks t l2 s1 = Q) :
    run_callbacks t (l1 ++ l2) s = (Q.1, log1 ++ Q.2) := by
  rw [run_callbacks_append, h1]
  dsimp only
  rw [h2]

end Moonshine

namespace Moonshine

theorem flatten_624_length :
    ((List.replicate 624 speech_chunk).flatten).length = 319488 := by
  rw [List.length_flatten, List.map_replicate, speech_chunk_length, List.sum_replicate,
    smul_eq_mul]

set_option maxRecDepth 8192 in
theorem burst_run (t : List Int → String) :
    (run_callbacks t burst_inputs init_state).2
      = [(speech_chunk ++ (List.replicate 624 speech_chunk).flatten) ++ speech_chunk] ∧
    (run_callbacks t burst_inputs init_state).1.state = PState.waiting := by
  have h1 : audio_callback t start_input.status start_input.data start_input.vad
      start_input.now init_state
      = (⟨speech_chunk, PState.recording, 0, [], false, none⟩, []) := by
    rw [show start_input.vad = some ⟨true, false⟩ from rfl]
    rw [cb_waiting_start t start_input.status start_input.data start_input.now init_state rfl]
    rw [show init_state.audio_buffer ++ start_input.data = speech_chunk from rfl]
    rw [lastN_of_le (by rw [speech_chunk_length]
                        norm_num [lookback, LOOKBACK_CHUNKS, CHUNK_SIZE])]
    rfl
  have h2 : run_callbacks t (List.replicate 624 cont_input)
        (⟨speech_chunk, PState.recording, 0, [], false, none⟩ : MoonState)
      = (⟨speech_chunk ++ (List.replicate 624 speech_chunk).flatten,
          PState.recording, 0, [], false, none⟩, []) := by
    rw [run_cont_recording t 624 ⟨speech_chunk, PState.recording, 0, [], false, none⟩
      rfl rfl (by dsimp only; simp only [speech_chunk_length]; omega)]
  have h3 : audio_callback t cont_input.status cont_input.data cont_input.vad cont_input.now
        (⟨speech_chunk ++ (List.replicate 624 speech_chunk).flatten,
          PState.recording, 0, [], false, none⟩ : MoonState)
      = finalize_utterance t
          { (⟨speech_chunk ++ (List.replicate 624 speech_chunk).flatten,
          PState.recording, 0, [], false, none⟩ : MoonState) with
        audio_buffer := (⟨speech_chunk ++ (List.replicate 624 speech_chunk).flatten,
          PState.recording, 0, [], false, none⟩ : MoonState).audio_buffer ++ cont_input.data } := by
    exact cb_recording_none_cut t cont_input.status cont_input.data cont_input.now
      (⟨speech_chunk ++ (List.replicate 624 speech_chunk).flatten,
          PState.recording, 0, [], false, none⟩ : MoonState)
      rfl
      (by dsimp only; norm_num [MIN_REFRESH_SECS, show cont_input.now = (0 : ℚ) from rfl])
      (by rw [show ((⟨speech_chunk ++ (List.replicate 624 speech_chunk).flatten,
                PState.recording, 0, [], false, none⟩ : MoonState)).audio_buffer
              = speech_chunk ++ (List.replicate 624 speech_chunk).flatten from rfl]
          rw [show cont_input.data = speech_chunk from rfl]
          rw [List.length_append, flatten_624_length, speech_chunk_length]
          omega)
  have h3f : audio_callback t cont_input.status cont_input.data cont_input.vad cont_input.now
        (⟨speech_chunk ++ (List.replicate 624 speech_chunk).flatten,
          PState.recording, 0, [], false, none⟩ : MoonState)
      = finalize_utterance t
          (⟨(speech_chunk ++ (List.replicate 624 speech_chunk).flatten) ++ speech_chunk,
          PState.recording, 0, [], false, none⟩ : MoonState) := by
    rw [h3]
  have ff := finalize_fields t
    (⟨(speech_chunk ++ (List.replicate 624 speech_chunk).flatten) ++ speech_chunk,
          PState.recording, 0, [], false, none⟩ : MoonState)
  obtain ⟨b4, h4eq⟩ := run_cont_waiting t 624
    (finalize_utterance t
      (⟨(speech_chunk ++ (List.replicate 624 speech_chunk).flatten) ++ speech_chunk,
          PState.recording, 0, [], false, none⟩ : MoonState)).1 ff.1
  have hFb : ({ (finalize_utterance t
      (⟨(speech_chunk ++ (List.replicate 624 speech_chunk).flatten) ++ speech_chunk,
          PState.recording, 0, [], false, none⟩ : MoonState)).1 with audio_buffer := b4 }).state = PState.waiting := ff.1
  have hE := run_end_eq t
    ({ (finalize_utterance t
      (⟨(speech_chunk ++ (List.replicate 624 speech_chunk).flatten) ++ speech_chunk,
          PState.recording, 0, [], false, none⟩ : MoonState)).1 with audio_buffer := b4 }) hFb
  have hfinpair : finalize_utterance t
      (⟨(speech_chunk ++ (List.replicate 624 speech_chunk).flatten) ++ speech_chunk,
          PState.recording, 0, [], false, none⟩ : MoonState)
      = ((finalize_utterance t
          (⟨(speech_chunk ++ (List.replicate 624 speech_chunk).flatten) ++ speech_chunk,
          PState.recording, 0, [], false, none⟩ : MoonState)).1,
         [(⟨(speech_chunk ++ (List.replicate 624 speech_chunk).flatten) ++ speech_chunk,
          PState.recording, 0, [], false, none⟩ : MoonState).audio_buffer]) := by
    rw [← ff.2.2.2.2]
  have hT := run_append_eq t (List.replicate 624 cont_input) [end_input]
    (finalize_utterance t
      (⟨(speech_chunk ++ (List.replicate 624 speech_chunk).flatten) ++ speech_chunk,
          PState.recording, 0, [], false, none⟩ : MoonState)).1
    ({ (finalize_utterance t
      (⟨(speech_chunk ++ (List.replicate 624 speech_chunk).flatten) ++ speech_chunk,
          PState.recording, 0, [], false, none⟩ : MoonState)).1 with audio_buffer := b4 }) [] _ h4eq hE
  have hC := run_cons_eq t cont_input (List.replicate 624 cont_input ++ [end_input])
    (⟨speech_chunk ++ (List.replicate 624 speech_chunk).flatten,
      PState.recording, 0, [], false, none⟩ : MoonState)
    (finalize_utterance t
      (⟨(speech_chunk ++ (List.replicate 624 speech_chunk).flatten) ++ speech_chunk,
          PState.recording, 0, [], false, none⟩ : MoonState)).1
    [(⟨(speech_chunk ++ (List.replicate 624 speech_chunk).flatten) ++ speech_chunk,
          PState.recording, 0, [], false, none⟩ : MoonState).audio_buffer] _ (h3f.trans hfinpair) hT
  have hA := run_append_eq t (List.replicate 624 cont_input)
    (cont_input :: (List.replicate 624 cont_input ++ [end_input]))
    (⟨speech_chunk, PState.recording, 0, [], false, none⟩ : MoonState)
    (⟨speech_chunk ++ (List.replicate 624 speech_chunk).flatten,
      PState.recording, 0, [], false, none⟩ : MoonState)
    [] _ h2 hC
  have hTop := run_cons_eq t start_input
    (List.replicate 624 cont_input
      ++ (cont_input :: (List.replicate 624 cont_input ++ [end_input])))
    init_state
    (⟨speech_chunk, PState.recording, 0, [], false, none⟩ : MoonState)
    [] _ h1 hA
  constructor
  · exact (congrArg Prod.snd hTop).trans rfl
  · refine (congrArg MoonState.state (congrArg Prod.fst hTop)).trans ?_
    dsimp only
    exact ff.1

end Moonshine

/-! ## Claim theorems -/

/-- Claim C1, counterexample: in `moonshine.py` the claim is false — the audio
callback itself invokes the transcription function. On a concrete recording
state with buffer `[5]`, a frame `[7]` and a VAD end event, the callback
performs one transcription call, on the utterance `[5, 7]`. -/
theorem C1_counterexample :
    (Moonshine.audio_callback (fun _ => "hi") false [7] (some ⟨false, true⟩) 0
      (⟨[5], PState.recording, 0, [], false, some ()⟩ : Moonshine.MoonState)).2
      = [[5, 7]] := by
  rfl

/-- Claim C1, amended: in `transcriber_module.py` the audio callback never
invokes the transcription function — it has no access to the model at all —
and communicates with the worker only by appending items to the transcription
queue, never touching the output queue. (In `moonshine.py` the callback
transcribes synchronously inside `_finalize_utterance`, see the
counterexample.) -/
theorem C1_theorem (c : Transcriber.Config) (isp : List Int → Bool) (st : Bool)
    (data : List Int) (s : Transcriber.State) :
    ∃ enq, (Transcriber.audio_callback c isp st data s).transcription_queue
        = s.transcription_queue ++ enq ∧
      (Transcriber.audio_callback c isp st data s).output_queue = s.output_queue := by
  unfold Transcriber.audio_callback
  by_cases h1 : st
  · rw [if_pos h1]
    exact ⟨[], by simp⟩
  · rw [if_neg h1]
    by_cases h2 : s.keep_running = false
    · rw [if_pos h2]
      exact ⟨[], by simp⟩
    · rw [if_neg h2]
      dsimp only
      obtain ⟨l, hq, ho⟩ := Transcriber.vad_loop_queues c isp
        ({ s with processing_buffer := s.processing_buffer ++ data }).processing_buffer.length
        { s with processing_buffer := s.processing_buffer ++ data }
      exact ⟨l, hq, ho⟩

/-- Claim C2, counterexample: the seeding order is wrong in the claim. When
the lookback buffer is already full (2560 samples of value 7) and the
triggering frame (512 samples of value 9) arrives, `moonshine.py` appends the
frame first and then caps to the last 2560 samples, so the resulting
utterance buffer is NOT the capped lookback contents followed by the frame
(which would be 3072 samples long). -/
theorem C2_counterexample :
    (Moonshine.audio_callback (fun _ => "hi") false (List.replicate 512 9)
      (some ⟨true, false⟩) 0
      (⟨List.replicate 2560 7, PState.waiting, 0, [], false, some ()⟩
        : Moonshine.MoonState)).1.audio_buffer
    ≠ Moonshine.lastN Moonshine.lookback (List.replicate 2560 7) ++ List.replicate 512 9 := by
  have h1 : (Moonshine.lastN Moonshine.lookback
      (List.replicate 2560 (7 : Int) ++ List.replicate 512 9)).length = 2560 := by
    simp only [Moonshine.lastN, List.length_drop, List.length_append, List.length_replicate,
      Moonshine.lookback, Moonshine.LOOKBACK_CHUNKS, Moonshine.CHUNK_SIZE]
  have h2 : (Moonshine.lastN Moonshine.lookback (List.replicate 2560 (7 : Int))
      ++ List.replicate 512 (9 : Int)).length = 3072 := by
    simp only [Moonshine.lastN, List.length_drop, List.length_append, List.length_replicate,
      Moonshine.lookback, Moonshine.LOOKBACK_CHUNKS, Moonshine.CHUNK_SIZE]
  rw [Moonshine.cb_waiting_start (fun _ => "hi") false (List.replicate 512 9) 0 _ rfl]
  intro h
  have hl := congrArg List.length h
  dsimp only at hl
  rw [h1, h2] at hl
  exact absurd hl (by decide)

/-- Claim C2, amended: on a speech-start transition the utterance buffer
equals the last `lookback` samples of (pre-existing lookback contents ++
triggering frame) — the frame is appended before capping, so a full lookback
buffer loses its oldest frame-worth of context — and no transcription happens;
in `transcriber_module.py` there is no lookback at all: the utterance buffer
after the transition is just the triggering frame. -/
theorem C2_theorem (t : List Int → String) (st : Bool) (data : List Int) (now : ℚ)
    (s : Moonshine.MoonState) (c : Transcriber.Config) (fr : List Int)
    (u : Transcriber.State)
    (hm : s.state = PState.waiting) (hu : u.current_state = PState.waiting) :
    (Moonshine.audio_callback t st data (some ⟨true, false⟩) now s).1.audio_buffer
      = Moonshine.lastN Moonshine.lookback (s.audio_buffer ++ data) ∧
    (Moonshine.audio_callback t st data (some ⟨true, false⟩) now s).1.state
      = PState.recording ∧
    (Moonshine.audio_callback t st data (some ⟨true, false⟩) now s).2 = [] ∧
    (Transcriber.process_vad_frame c true fr u).1.speech_buffer = [fr] ∧
    (Transcriber.process_vad_frame c true fr u).1.current_state = PState.recording := by
  rw [Moonshine.cb_waiting_start t st data now s hm]
  rw [Transcriber.pvf_speech_waiting c fr u hu]
  refine ⟨?_, rfl, rfl, rfl, rfl⟩
  dsimp only

/-- Claim C2, witness: the amended claim at a concrete full lookback buffer
and triggering frame, resp. a concrete waiting polling-gate state. -/
theorem C2_witness :
    ((⟨[7], PState.waiting, 0, [], false, some ()⟩ : Moonshine.MoonState).state
        = PState.waiting ∧
      (⟨true, PState.waiting, [], [], 0, [], []⟩ : Transcriber.State).current_state
        = PState.waiting) ∧
    ((Moonshine.audio_callback (fun _ => "hi") false [9] (some ⟨true, false⟩) 0
        (⟨[7], PState.waiting, 0, [], false, some ()⟩ : Moonshine.MoonState)).1.audio_buffer
      = Moonshine.lastN Moonshine.lookback
          ((⟨[7], PState.waiting, 0, [], false, some ()⟩ : Moonshine.MoonState).audio_buffer
            ++ [9]) ∧
     (Moonshine.audio_callback (fun _ => "hi") false [9] (some ⟨true, false⟩) 0
        (⟨[7], PState.waiting, 0, [], false, some ()⟩ : Moonshine.MoonState)).1.state
       = PState.recording ∧
     (Moonshine.audio_callback (fun _ => "hi") false [9] (some ⟨true, false⟩) 0
        (⟨[7], PState.waiting, 0, [], false, some ()⟩ : Moonshine.MoonState)).2 = [] ∧
     (Transcriber.process_vad_frame Transcriber.default_config true [3]
        (⟨true, PState.waiting, [], [], 0, [], []⟩ : Transcriber.State)).1.speech_buffer
       = [[3]] ∧
     (Transcriber.process_vad_frame Transcriber.default_config true [3]
        (⟨true, PState.waiting, [], [], 0, [], []⟩ : Transcriber.State)).1.current_state
       = PState.recording) :=
  ⟨⟨rfl, rfl⟩, C2_theorem (fun _ => "hi") false [9] 0 _
    Transcriber.default_config [3] _ rfl rfl⟩

/-- Claim C3, counterexample: the claim is false for `moonshine.py`. On a
continuous 40-second burst (1250 chunks of 512 samples, `2 * MAX_SPEECH_SECS`
of audio) the pipeline does not finalize two utterances, and the finalized
audio does not cover the burst: fewer than two utterances are produced and
their samples total less than the 640000 samples fed in. -/
theorem C3_counterexample :
    (Moonshine.run_callbacks (fun _ => "x") Moonshine.burst_inputs
        Moonshine.init_state).2.length ≠ 2 ∧
    ((Moonshine.run_callbacks (fun _ => "x") Moonshine.burst_inputs
        Moonshine.init_state).2.map List.length).sum ≠ 1250 * 512 := by
  obtain ⟨hlog, -⟩ := Moonshine.burst_run (fun _ => "x")
  constructor
  · rw [hlog]
    simp only [List.length_cons, List.length_nil]
    omega
  · rw [hlog]
    simp only [List.map_cons, List.map_nil, List.length_append,
      Moonshine.flatten_624_length, Moonshine.speech_chunk_length, List.sum_cons,
      List.sum_nil]
    omega

/-- Claim C3, amended: a continuous speech burst of duration
`2 * MAX_SPEECH_SECS` (1250 chunks of 512 samples) produces exactly ONE
finalized utterance, of 320512 samples (just over `MAX_SPEECH_SECS` worth of
audio): the forced cutoff finalizes what accumulated and returns to WAITING,
but because the event-driven gate only signals transitions, no new start
event arrives for the ongoing speech, so the second half of the burst is
never recorded — it is suppressed, surviving only in the 2560-sample
lookback window — and the closing end event arrives in WAITING as a no-op. -/
theorem C3_theorem (t : List Int → String) :
    ((Moonshine.run_callbacks t Moonshine.burst_inputs Moonshine.init_state).2).map
        List.length = [320512] ∧
    (Moonshine.run_callbacks t Moonshine.burst_inputs Moonshine.init_state).1.state
      = PState.waiting := by
  obtain ⟨hlog, hst⟩ := Moonshine.burst_run t
  refine ⟨?_, hst⟩
  rw [hlog]
  simp only [List.map_cons, List.map_nil, List.length_append,
    Moonshine.flatten_624_length, Moonshine.speech_chunk_length]

/-- Claim C4, confirmed: in the polling implementation, when a dequeued
utterance has mean absolute amplitude below the configured energy threshold,
the worker resets the pipeline state to WAITING, never invokes the
transcription function on it, and pushes no text to the output queue. (In
`moonshine.py` no energy threshold is configured, so the claim is vacuously
true there.) -/
theorem C4_theorem (c : Transcriber.Config) (t : List Int → String)
    (chunks : List (List Int)) (s : Transcriber.State)
    (h : Transcriber.mean_abs_amp chunks.flatten < c.energy_threshold) :
    (Transcriber.transcription_worker_step c t (some chunks) s).1.current_state
      = PState.waiting ∧
    (Transcriber.transcription_worker_step c t (some chunks) s).2 = [] ∧
    (Transcriber.transcription_worker_step c t (some chunks) s).1.output_queue
      = s.output_queue := by
  simp only [Transcriber.transcription_worker_step]
  rw [if_pos h]
  exact ⟨rfl, rfl, rfl⟩

/-- Claim C4, witness: the confirmed claim at the default configuration on a
single all-zero chunk, whose mean absolute amplitude 0 is below the default
threshold of 1/200. -/
theorem C4_witness :
    Transcriber.mean_abs_amp ([[0]] : List (List Int)).flatten
        < Transcriber.default_config.energy_threshold ∧
    ((Transcriber.transcription_worker_step Transcriber.default_config (fun _ => "hi")
        (some [[0]]) Transcriber.init_state).1.current_state = PState.waiting ∧
     (Transcriber.transcription_worker_step Transcriber.default_config (fun _ => "hi")
        (some [[0]]) Transcriber.init_state).2 = [] ∧
     (Transcriber.transcription_worker_step Transcriber.default_config (fun _ => "hi")
        (some [[0]]) Transcriber.init_state).1.output_queue
       = Transcriber.init_state.output_queue) := by
  have h : Transcriber.mean_abs_amp ([[0]] : List (List Int)).flatten
      < Transcriber.default_config.energy_threshold := by
    norm_num [Transcriber.mean_abs_amp, Transcriber.default_config]
  exact ⟨h, C4_theorem Transcriber.default_config (fun _ => "hi") [[0]]
    Transcriber.init_state h⟩

/-- Claim C5, counterexample: with `vad_silence_timeout_ms = 100` and
`vad_frame_ms = 30`, `int(100 / 30)` truncates to 3, so the segmenter breaks
and finalizes after only 3 consecutive non-speech sub-frames — strictly
fewer than `ceil(100 / 30) = 4` — refuting the claimed threshold for this
configuration. -/
theorem C5_counterexample :
    (Transcriber.process_vad_frame (⟨3, 30, 100, 1024, 1/200⟩ : Transcriber.Config)
        false [0]
        (⟨true, PState.recording, [], [], 2, [], []⟩ : Transcriber.State)).2 = true ∧
    (⟨true, PState.recording, [], [], 2, [], []⟩
        : Transcriber.State).silence_frames_after_speech + 1
      < (100 + 30 - 1) / 30 := by
  constructor
  · rw [Transcriber.pvf_silence_recording_fin _ [0] _ rfl
      (by norm_num [Transcriber.max_silence_frames])]
  · norm_num

/-- Claim C5, amended: the polling segmenter declares speech-ended exactly
when the consecutive non-speech count reaches
`floor(vad_silence_timeout_ms / vad_frame_ms)` — Python `int()` truncates —
not the ceiling; the two agree only when `vad_frame_ms` divides
`vad_silence_timeout_ms` (as it does for the 1500/30 default). -/
theorem C5_theorem (c : Transcriber.Config) (fr : List Int) (s : Transcriber.State)
    (h : s.current_state = PState.recording) :
    Transcriber.max_silence_frames c
        = c.vad_silence_timeout_ms / c.vad_frame_ms ∧
    ((Transcriber.process_vad_frame c false fr s).2 = true
      ↔ Transcriber.max_silence_frames c ≤ s.silence_frames_after_speech + 1) := by
  refine ⟨rfl, ?_⟩
  by_cases hm : Transcriber.max_silence_frames c ≤ s.silence_frames_after_speech + 1
  · rw [Transcriber.pvf_silence_recording_fin c fr s h hm]
    simp [hm]
  · rw [Transcriber.pvf_silence_recording_below c fr s h (by omega)]
    simp [hm]

/-- Claim C5, witness: the amended claim at the default configuration
(threshold 1500/30 = 50) on a recording state with 49 prior silence
frames. -/
theorem C5_witness :
    (⟨true, PState.recording, [], [], 49, [], []⟩ : Transcriber.State).current_state
        = PState.recording ∧
    (Transcriber.max_silence_frames Transcriber.default_config
        = Transcriber.default_config.vad_silence_timeout_ms
            / Transcriber.default_config.vad_frame_ms ∧
     ((Transcriber.process_vad_frame Transcriber.default_config false [0]
          (⟨true, PState.recording, [], [], 49, [], []⟩ : Transcriber.State)).2 = true
       ↔ Transcriber.max_silence_frames Transcriber.default_config
           ≤ (⟨true, PState.recording, [], [], 49, [], []⟩
               : Transcriber.State).silence_frames_after_speech + 1)) :=
  ⟨rfl, C5_theorem Transcriber.default_config [0]
    (⟨true, PState.recording, [], [], 49, [], []⟩ : Transcriber.State) rfl⟩

/-- Claim C6, counterexample: the claim is false for `transcriber_module.py`
— the transcription worker thread also writes the pipeline state. Consuming
a queued utterance while the state is RECORDING, the worker resets it to
WAITING. -/
theorem C6_counterexample :
    (Transcriber.transcription_worker_step Transcriber.default_config (fun _ => "")
        (some [[32767]])
        (⟨true, PState.recording, [], [], 0, [], []⟩ : Transcriber.State)).1.current_state
      ≠ (⟨true, PState.recording, [], [], 0, [], []⟩
          : Transcriber.State).current_state := by
  simp only [Transcriber.transcription_worker_step]
  split_ifs <;> decide

/-- Claim C6, amended: the claimed invariant fails for
`transcriber_module.py`: every consumed (non-sentinel) queue item makes the
worker thread write the pipeline state, resetting it to WAITING — both when
the energy gate skips the utterance and in the `finally` clause after a
transcription attempt; only the shutdown sentinel leaves the state
untouched. -/
theorem C6_theorem (c : Transcriber.Config) (t : List Int → String)
    (chunks : List (List Int)) (s : Transcriber.State) :
    (Transcriber.transcription_worker_step c t (some chunks) s).1.current_state
      = PState.waiting ∧
    (Transcriber.transcription_worker_step c t none s).1 = s := by
  constructor
  · simp only [Transcriber.transcription_worker_step]
    split_ifs <;> rfl
  · rfl

/-- Claim C7, counterexample: the claim is false for `moonshine.py`. After a
session that left the text `"leftover"` in the output queue and the sample 1
in the audio buffer, `stop()` followed by `start()` neither drains the queue
nor clears the buffer: the restarted session immediately yields the prior
session text. -/
theorem C7_counterexample :
    Moonshine.next_yield (Moonshine.start (Moonshine.stop
        (⟨[1], PState.recording, 0, ["leftover"], false, some ()⟩
          : Moonshine.MoonState))) = some "leftover" ∧
    (Moonshine.start (Moonshine.stop
        (⟨[1], PState.recording, 0, ["leftover"], false, some ()⟩
          : Moonshine.MoonState))).audio_buffer ≠ [] := by
  constructor
  · rfl
  · decide

/-- Claim C7, amended: only `transcriber_module.py` establishes a fresh
session: when not already running, `start()` resets the pipeline state to
WAITING, empties every buffer and counter and discards all previously queued
items unconditionally. (`moonshine.py` keeps buffers, state and the output
queue across restarts, see the counterexample.) -/
theorem C7_theorem (s : Transcriber.State) (h : s.keep_running = false) :
    Transcriber.start s
      = (⟨true, PState.waiting, [], [], 0, [], []⟩ : Transcriber.State) := by
  simp [Transcriber.start, h]

/-- Claim C7, witness: the amended claim on a maximally dirty stopped
state. -/
theorem C7_witness :
    (⟨false, PState.recording, [[1]], [2], 3, [some [[4]]], ["old"]⟩
        : Transcriber.State).keep_running = false ∧
    Transcriber.start (⟨false, PState.recording, [[1]], [2], 3, [some [[4]]], ["old"]⟩
        : Transcriber.State)
      = (⟨true, PState.waiting, [], [], 0, [], []⟩ : Transcriber.State) :=
  ⟨rfl, C7_theorem (⟨false, PState.recording, [[1]], [2], 3, [some [[4]]], ["old"]⟩
      : Transcriber.State) rfl⟩

/-- Claim C8, counterexample: the claim is false for `moonshine.py`:
`_finalize_utterance` has no emptiness check. Finalizing a RECORDING state
whose utterance buffer is empty invokes the transcription function on the
empty buffer, and when the model returns nonempty text it is enqueued. -/
theorem C8_counterexample :
    (Moonshine.finalize_utterance (fun _ => "ghost")
        (⟨[], PState.recording, 0, [], false, some ()⟩ : Moonshine.MoonState)).2
      = [[]] ∧
    (Moonshine.finalize_utterance (fun _ => "ghost")
        (⟨[], PState.recording, 0, [], false, some ()⟩
          : Moonshine.MoonState)).1.output_queue
      = ["ghost"] := by
  constructor
  · rfl
  · rfl

/-- Claim C8, amended: the emptiness guard exists only in
`transcriber_module.py`: a speech buffer that is empty at finalize time is
dropped — nothing is enqueued to the transcription queue, so the worker (the
only caller of the transcription function) never sees the empty utterance.
`moonshine.py` transcribes the empty buffer anyway, see the
counterexample. -/
theorem C8_theorem (s : Transcriber.State) (h : s.speech_buffer = []) :
    (Transcriber.finalize_speech_buffer s).transcription_queue
        = s.transcription_queue ∧
    (Transcriber.finalize_speech_buffer s).speech_buffer = [] := by
  simp [Transcriber.finalize_speech_buffer, h]

/-- Claim C8, witness: the amended claim on the initial state, whose speech
buffer is empty. -/
theorem C8_witness :
    Transcriber.init_state.speech_buffer = [] ∧
    ((Transcriber.finalize_speech_buffer Transcriber.init_state).transcription_queue
        = Transcriber.init_state.transcription_queue ∧
     (Transcriber.finalize_speech_buffer Transcriber.init_state).speech_buffer = []) :=
  ⟨rfl, C8_theorem Transcriber.init_state rfl⟩

/-- Claim C9, confirmed: the `transcriber_module.py` audio callback conserves
samples in order: while running and with a clean status, the previous
processing buffer followed by the incoming block splits exactly into a
sequence of whole VAD frames (each of exactly `vad_frame_samples` samples,
taken from the front in arrival order) followed by the retained processing
buffer — no sample is dropped or reordered before VAD classification. -/
theorem C9_theorem (c : Transcriber.Config) (isp : List Int → Bool)
    (data : List Int) (s : Transcriber.State) (h : s.keep_running = true) :
    ∃ frames : List (List Int),
      (∀ f ∈ frames, f.length = Transcriber.vad_frame_samples c) ∧
      s.processing_buffer ++ data
        = frames.flatten
          ++ (Transcriber.audio_callback c isp false data s).processing_buffer := by
  unfold Transcriber.audio_callback
  rw [if_neg (by decide : ¬ (false = true))]
  rw [if_neg (show ¬ (s.keep_running = false) by rw [h]; decide)]
  dsimp only
  exact Transcriber.vad_loop_conservation c isp
    ({ s with processing_buffer := s.processing_buffer ++ data }).processing_buffer.length
    { s with processing_buffer := s.processing_buffer ++ data }

/-- Claim C9, witness: the conservation claim at the default configuration
(480-sample frames) on a running state receiving 500 samples. -/
theorem C9_witness :
    (⟨true, PState.waiting, [], [], 0, [], []⟩ : Transcriber.State).keep_running
        = true ∧
    ∃ frames : List (List Int),
      (∀ f ∈ frames, f.length = Transcriber.vad_frame_samples
          Transcriber.default_config) ∧
      (⟨true, PState.waiting, [], [], 0, [], []⟩ : Transcriber.State).processing_buffer
          ++ List.replicate 500 2
        = frames.flatten
          ++ (Transcriber.audio_callback Transcriber.default_config (fun _ => false)
              false (List.replicate 500 2)
              (⟨true, PState.waiting, [], [], 0, [], []⟩
                : Transcriber.State)).processing_buffer :=
  ⟨rfl, C9_theorem Transcriber.default_config (fun _ => false) (List.replicate 500 2)
    (⟨true, PState.waiting, [], [], 0, [], []⟩ : Transcriber.State) rfl⟩

/-- Claim C10, confirmed: from any reachable `moonshine.py` session state,
the `finally` clause of the generator invokes `stop()`, after which the stop
event is set and the stream reference is gone — either this `stop()` ran its
body, or an earlier `stop()` had already done so, since reachable states
with the stop event set never hold a stream. -/
theorem C10_theorem {s : Moonshine.MoonState} (h : Moonshine.Reach s) :
    (Moonshine.generator_cleanup s).stop_event = true ∧
    (Moonshine.generator_cleanup s).stream = none := by
  unfold Moonshine.generator_cleanup Moonshine.stop
  by_cases hs : s.stop_event = true
  · rw [if_pos hs]
    exact ⟨hs, Moonshine.reach_ctrl_invariant h hs⟩
  · rw [if_neg hs]
    exact ⟨rfl, rfl⟩

/-- Claim C10, witness: the claim at the freshly constructed state, which is
reachable by definition. -/
theorem C10_witness :
    Moonshine.Reach Moonshine.init_state ∧
    ((Moonshine.generator_cleanup Moonshine.init_state).stop_event = true ∧
     (Moonshine.generator_cleanup Moonshine.init_state).stream = none) :=
  ⟨Moonshine.Reach.init, C10_theorem Moonshine.Reach.init⟩
